import Mathlib

/-!
Verification development for the ociaitoopenai Traefik plugin: a shallow
embedding of the plugin request/response transformation code
(plugin.go, internal/transform/transform.go, pkg/types/types.go) together
with theorems settling the specification claims.

Conventions of the embedding:
* Go byte slices are `List Nat` (one `Nat` per byte).
* Go `int` fields are `Int`; Go `float32`/`float64` sampling parameters are
  both `Rat` (the float32 to float64 widening in the source is exact, and the
  transformer only copies these values, so a single exact numeric type is
  faithful).
* JSON (de)serialization, the standard-library gzip/deflate codecs, random id
  generation and the system clock live outside this repository; they enter the
  embedding as explicit function parameters of the functions that call them.
* Fallible Go calls returning `(T, error)` become `Except String T`.
-/

namespace Ociaitoopenai

/-- Plugin configuration (internal/config/config.go `Config`). -/
structure Config where
  compartmentId : String
  region : String
deriving DecidableEq

/-- A message in a chat conversation (pkg/types `ChatCompletionMessage`). -/
structure ChatCompletionMessage where
  role : String
  content : String
deriving DecidableEq

/-- An inbound OpenAI chat request (pkg/types `ChatCompletionRequest`). -/
structure ChatCompletionRequest where
  model : String
  messages : List ChatCompletionMessage
  maxTokens : Int
  temperature : Rat
  topP : Rat
  frequencyPenalty : Rat
  presencePenalty : Rat
deriving DecidableEq

/-- Serving configuration for OCI GenAI (pkg/types `ServingMode`). -/
structure ServingMode where
  modelId : String
  servingType : String
deriving DecidableEq

/-- Streaming options for OCI chat requests (pkg/types `StreamOptions`). -/
structure StreamOptions where
  isIncludeUsage : Bool
deriving DecidableEq

/-- One chat-history entry built by the request transformer.  The source
builds these as a generic Go map with role and content keys; the
generic map is an artifact of flexible JSON output and is embedded as a
tagged record. -/
structure ChatHistoryEntry where
  role : String
  content : String
deriving DecidableEq

/-- The chat payload of an OCI GenAI request (pkg/types `ChatRequest`). -/
structure ChatRequest where
  maxTokens : Int
  temperature : Rat
  frequencyPenalty : Rat
  presencePenalty : Rat
  topP : Rat
  topK : Int
  isStream : Bool
  streamOptions : StreamOptions
  chatHistory : List ChatHistoryEntry
  message : String
  apiFormat : String
deriving DecidableEq

/-- The complete OCI GenAI request (pkg/types `OracleCloudRequest`). -/
structure OracleCloudRequest where
  compartmentId : String
  servingMode : ServingMode
  chatRequest : ChatRequest
deriving DecidableEq

/-- Token usage statistics from OCI (pkg/types `OracleCloudUsage`). -/
structure OracleCloudUsage where
  completionTokens : Int
  promptTokens : Int
  totalTokens : Int
deriving DecidableEq

/-- A chat-history entry of an OCI response (pkg/types `OracleCloudChatHistory`). -/
structure OracleCloudChatHistory where
  role : String
  message : String
deriving DecidableEq

/-- The chat part of an OCI GenAI response (pkg/types `OracleCloudChatResponse`). -/
structure OracleCloudChatResponse where
  apiFormat : String
  text : String
  chatHistory : List OracleCloudChatHistory
  finishReason : String
  usage : OracleCloudUsage
deriving DecidableEq

/-- The complete OCI GenAI response (pkg/types `OracleCloudResponse`). -/
structure OracleCloudResponse where
  modelId : String
  modelVersion : String
  chatResponse : OracleCloudChatResponse
deriving DecidableEq

/-- Usage statistics in OpenAI format (pkg/types `ChatCompletionUsage`). -/
structure ChatCompletionUsage where
  promptTokens : Int
  completionTokens : Int
  totalTokens : Int
deriving DecidableEq

/-- A single completion choice (pkg/types `ChatCompletionChoice`). -/
structure ChatCompletionChoice where
  index : Int
  message : ChatCompletionMessage
  finishReason : String
deriving DecidableEq

/-- An OpenAI chat completion response (pkg/types `ChatCompletionResponse`). -/
structure ChatCompletionResponse where
  id : String
  object : String
  created : Int
  model : String
  choices : List ChatCompletionChoice
  usage : ChatCompletionUsage
deriving DecidableEq

/-- An OCI model descriptor (pkg/types `OCIModel`).  Only the fields the
transformer reads are embedded, plus `displayName`; the remaining Go struct
fields (tags, shapes, lifecycle details, ...) are inert payload that no code
under verification ever inspects. -/
structure OCIModel where
  capabilities : List String
  displayName : String
  id : String
  lifecycleState : String
  timeCreated : String
  vendor : String
deriving DecidableEq

/-- An OCI models listing; the transformer iterates its model collection
(`ociResp.Models` in internal/transform/transform.go). -/
structure OCIModelsResponse where
  models : List OCIModel
deriving DecidableEq

/-- A model entry in OpenAI format (pkg/types `OpenAIModel`). -/
structure OpenAIModel where
  id : String
  object : String
  created : Int
  ownedBy : String
deriving DecidableEq

/-- An OpenAI models listing (pkg/types `OpenAIModelsResponse`). -/
structure OpenAIModelsResponse where
  object : String
  data : List OpenAIModel
deriving DecidableEq

/-!  Request transformer (internal/transform/transform.go). -/

/-- The message loop of `Transformer.ToOracleCloudRequest` (lines 66-82):
every message except the last becomes a chat-history entry with role and
content copied verbatim, and the content of the last message becomes the current
message. -/
def splitMessages : List ChatCompletionMessage → List ChatHistoryEntry × String
  | [] => ([], "")
  | [m] => ([], m.content)
  | m :: r :: rs =>
      let p := splitMessages (r :: rs)
      ({ role := m.role, content := m.content } :: p.1, p.2)

/-- `Transformer.ToOracleCloudRequest`: converts an OpenAI chat request to
OCI GenAI format.  The empty-messages branch only sets max tokens,
temperature, message and API format; the remaining chat-request fields keep
their Go zero values. -/
def ToOracleCloudRequest (cfg : Config) (openAIReq : ChatCompletionRequest) :
    OracleCloudRequest :=
  if openAIReq.messages = [] then
    { compartmentId := cfg.compartmentId
      servingMode := { modelId := openAIReq.model, servingType := "ON_DEMAND" }
      chatRequest :=
        { maxTokens := openAIReq.maxTokens
          temperature := openAIReq.temperature
          frequencyPenalty := 0
          presencePenalty := 0
          topP := 0
          topK := 0
          isStream := false
          streamOptions := { isIncludeUsage := false }
          chatHistory := []
          message := ""
          apiFormat := "COHERE" } }
  else
    let p := splitMessages openAIReq.messages
    { compartmentId := cfg.compartmentId
      servingMode := { modelId := openAIReq.model, servingType := "ON_DEMAND" }
      chatRequest :=
        { maxTokens := openAIReq.maxTokens
          temperature := openAIReq.temperature
          frequencyPenalty := openAIReq.frequencyPenalty
          presencePenalty := openAIReq.presencePenalty
          topP := openAIReq.topP
          topK := 0
          isStream := false
          streamOptions := { isIncludeUsage := false }
          chatHistory := p.1
          message := p.2
          apiFormat := "COHERE" } }

/-- Conversion of one input message to a chat-history entry, as performed by
the transformer loop. -/
def toHistoryEntry (m : ChatCompletionMessage) : ChatHistoryEntry :=
  { role := m.role, content := m.content }

/-- The content of the last message of a list, or the empty string for an
empty list; this is the value the transformer loop leaves in its
`currentMessage` variable. -/
def lastContent (msgs : List ChatCompletionMessage) : String :=
  (msgs.getLast?.map ChatCompletionMessage.content).getD ""

theorem splitMessages_eq (msgs : List ChatCompletionMessage) :
    splitMessages msgs = (msgs.dropLast.map toHistoryEntry, lastContent msgs) := by
  induction msgs with
  | nil => simp [splitMessages, lastContent]
  | cons m rest ih =>
    cases rest with
    | nil => simp [splitMessages, lastContent, toHistoryEntry]
    | cons r rs =>
      simp only [splitMessages, ih, List.dropLast_cons₂, List.map_cons, lastContent,
        List.getLast?_cons_cons, toHistoryEntry]

/-!  Response transformer — chat (internal/transform/transform.go). -/

/-- `mapFinishReason`: maps Oracle Cloud finish reasons to OpenAI format. -/
def mapFinishReason (oracleReason : String) : String :=
  if oracleReason = "COMPLETE" then "stop"
  else if oracleReason = "MAX_TOKENS" then "length"
  else if oracleReason = "CONTENT_FILTER" then "content_filter"
  else "stop"

/-- `Transformer.ToOpenAIResponse`: converts an OCI GenAI response to OpenAI
chat-completion format.  `id` stands for the value of the call of the source to
`generateCompletionID()` and `now` for `time.Now().Unix()`; both are
impure inputs of the source function and enter the embedding as parameters. -/
def ToOpenAIResponse (id : String) (now : Int)
    (oracleResp : OracleCloudResponse) (originalModel : String) :
    ChatCompletionResponse :=
  let finishReason := mapFinishReason oracleResp.chatResponse.finishReason
  let responseText := oracleResp.chatResponse.text
  let assistantMessage : ChatCompletionMessage :=
    { role := "assistant", content := responseText }
  let choice : ChatCompletionChoice :=
    { index := 0, message := assistantMessage, finishReason := finishReason }
  let usage0 : ChatCompletionUsage :=
    { promptTokens := oracleResp.chatResponse.usage.promptTokens
      completionTokens := oracleResp.chatResponse.usage.completionTokens
      totalTokens := oracleResp.chatResponse.usage.totalTokens }
  let usage :=
    if usage0.totalTokens = 0 ∧ (usage0.promptTokens > 0 ∨ usage0.completionTokens > 0)
    then { usage0 with totalTokens := usage0.promptTokens + usage0.completionTokens }
    else usage0
  let model1 := originalModel
  let model2 := if model1 = "" then oracleResp.modelId else model1
  let model := if model2 = "" then "unknown" else model2
  { id := id
    object := "chat.completion"
    created := now
    model := model
    choices := [choice]
    usage := usage }

/-!  Response transformer — models listing (internal/transform/transform.go). -/

/-- The loop body of `Transformer.ToOpenAIModelsResponse`: keeps a model only
when its capabilities contain "CHAT" and its lifecycle state is "ACTIVE", and
converts it to OpenAI shape.  `parseRFC3339` stands for
`time.Parse(time.RFC3339, ...)` (`none` on parse error) and `now` for
`time.Now().Unix()`, the fallback creation timestamp. -/
def modelsLoop (parseRFC3339 : String → Option Int) (now : Int) :
    List OCIModel → List OpenAIModel
  | [] => []
  | ociModel :: rest =>
    let supportsChat := ociModel.capabilities.contains "CHAT"
    if supportsChat ∧ ociModel.lifecycleState = "ACTIVE" then
      let created := (parseRFC3339 ociModel.timeCreated).getD now
      { id := ociModel.id
        object := "model"
        created := created
        ownedBy := ociModel.vendor } :: modelsLoop parseRFC3339 now rest
    else
      modelsLoop parseRFC3339 now rest

/-- `Transformer.ToOpenAIModelsResponse`: converts an OCI models listing to
OpenAI models format. -/
def ToOpenAIModelsResponse (parseRFC3339 : String → Option Int) (now : Int)
    (ociResp : OCIModelsResponse) : OpenAIModelsResponse :=
  { object := "list", data := modelsLoop parseRFC3339 now ociResp.models }

/-- The inclusion predicate of the models loop. -/
def keepsModel (m : OCIModel) : Bool :=
  m.capabilities.contains "CHAT" && m.lifecycleState == "ACTIVE"

/-- The per-model conversion of the models loop. -/
def toOpenAIModel (parseRFC3339 : String → Option Int) (now : Int)
    (m : OCIModel) : OpenAIModel :=
  { id := m.id
    object := "model"
    created := (parseRFC3339 m.timeCreated).getD now
    ownedBy := m.vendor }

theorem keepsModel_iff (m : OCIModel) :
    keepsModel m = true ↔
      (m.capabilities.contains "CHAT" = true ∧ m.lifecycleState = "ACTIVE") := by
  simp [keepsModel]

theorem modelsLoop_eq (parseRFC3339 : String → Option Int) (now : Int)
    (models : List OCIModel) :
    modelsLoop parseRFC3339 now models =
      (models.filter keepsModel).map (toOpenAIModel parseRFC3339 now) := by
  induction models with
  | nil => simp [modelsLoop]
  | cons m rest ih =>
    simp only [modelsLoop, List.filter_cons]
    by_cases h : m.capabilities.contains "CHAT" = true ∧ m.lifecycleState = "ACTIVE"
    · rw [if_pos h, if_pos ((keepsModel_iff m).mpr h)]
      simp [toOpenAIModel, ih]
    · rw [if_neg h, if_neg (fun hk => h ((keepsModel_iff m).mp hk))]
      exact ih

/-!  Transport codec (plugin.go `compressResponse` / `decompressResponse`).

The gzip and deflate codecs themselves are Go standard-library code, outside
this repository; they enter the embedding as function parameters (`gzipC`,
`deflateC` for compression, `gzipD`, `deflateD` for decompression).  Writing
gzip/deflate streams into an in-memory buffer cannot fail in Go, so the
compressors are total; the decompressors are fallible. -/

/-- `Proxy.compressResponse`: compresses the body when the original response
declared a Content-Encoding; a missing/empty or unknown encoding leaves the
body unchanged.  `contentEncoding` is the value of
`originalHeaders.Get("Content-Encoding")` (empty string when absent). -/
def compressResponse (gzipC deflateC : List Nat → List Nat)
    (body : List Nat) (contentEncoding : String) : List Nat :=
  if contentEncoding = "" then body
  else if contentEncoding = "gzip" then gzipC body
  else if contentEncoding = "deflate" then deflateC body
  else body

/-- `Proxy.decompressResponse`: decompresses the body per the declared
Content-Encoding; a missing/empty or unknown encoding, or a gzip body shorter
than 2 bytes, passes the body through unchanged. -/
def decompressResponse (gzipD deflateD : List Nat → Except String (List Nat))
    (body : List Nat) (contentEncoding : String) : Except String (List Nat) :=
  if contentEncoding = "" then .ok body
  else if contentEncoding = "gzip" then
    if body.length < 2 then .ok body
    else
      match gzipD body with
      | .error e => .error ("failed to decompress gzip response: " ++ e)
      | .ok decompressed => .ok decompressed
  else if contentEncoding = "deflate" then
    match deflateD body with
    | .error e => .error ("failed to decompress deflate response: " ++ e)
    | .ok decompressed => .ok decompressed
  else .ok body

/-!  Response-capturing writer (plugin.go `responseWriter`).

The wrapped `http.ResponseWriter` is modeled explicitly so that the frame
property "nothing reaches the real caller" is visible: a status/body write on
the underlying writer would change its state, and the wrapper methods never
touch it. -/

/-- The observable state of the underlying (real) response writer. -/
structure UnderlyingWriter where
  wroteStatus : Option Int
  wroteBody : List Nat
deriving DecidableEq

/-- plugin.go `responseWriter`: wraps the underlying writer and captures
status code and body instead of forwarding them. -/
structure responseWriter where
  underlying : UnderlyingWriter
  statusCode : Int
  body : List Nat
deriving DecidableEq

/-- plugin.go `newResponseWriter`: status code defaults to 200
(`http.StatusOK`) and the body buffer starts empty. -/
def newResponseWriter (w : UnderlyingWriter) : responseWriter :=
  { underlying := w, statusCode := 200, body := [] }

/-- `responseWriter.WriteHeader`: records the status code only. -/
def responseWriter.WriteHeader (rw : responseWriter) (code : Int) : responseWriter :=
  { rw with statusCode := code }

/-- `responseWriter.Write`: appends the bytes to the internal buffer and
returns `(len(b), nil)`. -/
def responseWriter.Write (rw : responseWriter) (b : List Nat) :
    responseWriter × Nat × Option String :=
  ({ rw with body := rw.body ++ b }, b.length, none)

/-- One call made on the capturing wrapper by the downstream handler. -/
inductive WriterCall where
  | writeHeader (code : Int)
  | write (b : List Nat)

/-- Runs a sequence of calls against a wrapper state. -/
def runCalls (rw : responseWriter) : List WriterCall → responseWriter
  | [] => rw
  | WriterCall.writeHeader code :: rest => runCalls (rw.WriteHeader code) rest
  | WriterCall.write b :: rest => runCalls (rw.Write b).1 rest

/-- Specification-side view: the code of the last `writeHeader` call, or the
default when none occurs. -/
def lastStatus (dflt : Int) : List WriterCall → Int
  | [] => dflt
  | WriterCall.writeHeader code :: rest => lastStatus code rest
  | WriterCall.write _ :: rest => lastStatus dflt rest

/-- Specification-side view: all written bytes, in call order. -/
def writtenBytes : List WriterCall → List Nat
  | [] => []
  | WriterCall.writeHeader _ :: rest => writtenBytes rest
  | WriterCall.write b :: rest => b ++ writtenBytes rest

theorem runCalls_characterization (rw : responseWriter) (cs : List WriterCall) :
    (runCalls rw cs).statusCode = lastStatus rw.statusCode cs ∧
    (runCalls rw cs).body = rw.body ++ writtenBytes cs ∧
    (runCalls rw cs).underlying = rw.underlying := by
  induction cs generalizing rw with
  | nil => simp [runCalls, lastStatus, writtenBytes]
  | cons c rest ih =>
    cases c with
    | writeHeader code =>
      simpa [runCalls, lastStatus, writtenBytes, responseWriter.WriteHeader]
        using ih (rw.WriteHeader code)
    | write b =>
      have h := ih (rw.Write b).1
      simp only [responseWriter.Write] at h
      simp [runCalls, lastStatus, writtenBytes, responseWriter.Write, h,
        List.append_assoc]

/-!  Interceptor/dispatcher (plugin.go, first variant: `ServeHTTP` lines
103-145, `processOpenAIRequest`, `processModelsRequest`, `processResponse`).

The observable the claims speak about is the status code and body written to
the real caller; header-map edits (Content-Type, CORS) are outside that
observable and are not modeled.  `json.Marshal` of the plain
string/number records cannot fail in Go, so the marshal parameters are total;
the two `json.Unmarshal` calls are fallible and enter as `Except`-valued
parameters. -/

/-- An inbound HTTP request as the dispatcher inspects it. -/
structure Request where
  method : String
  path : String
  body : List Nat
deriving DecidableEq

/-- A status code together with a response body, as written to the caller. -/
structure HttpResponse where
  statusCode : Int
  body : List Nat
deriving DecidableEq

/-- The captured downstream response: the recorded wrapper status code and
buffered body, plus the Content-Encoding value found in the shared response
header map after the downstream handler ran. -/
structure CapturedResponse where
  statusCode : Int
  body : List Nat
  contentEncoding : String
deriving DecidableEq

/-- UTF-8 bytes of a string. -/
def utf8Bytes (s : String) : List Nat :=
  s.toUTF8.toList.map (fun b => b.toNat)

/-- The body written by the Go function http.Error: the message plus a newline. -/
def httpErrorBody (msg : String) : List Nat :=
  utf8Bytes (msg ++ "\n")

/-- `Proxy.processOpenAIRequest` (first variant), restricted to the
successfully parsed request: the handler overwrites the caller max_tokens
with 1000 (`openAIReq.MaxTokens = 1000`) before transforming, and the
transformed request is what gets serialized and forwarded downstream. -/
def processOpenAIRequestV1 (cfg : Config) (openAIReq : ChatCompletionRequest) :
    OracleCloudRequest :=
  let openAIReq := { openAIReq with maxTokens := (1000 : Int) }
  ToOracleCloudRequest cfg openAIReq

/-- `Proxy.processResponse` (first variant): on non-200 the captured status
and body pass through; on 200 the body is decompressed, parsed, transformed,
re-serialized and re-compressed.  The returned value is the status/body the
function writes to the caller; `.error` means it wrote nothing and returned
the error to `ServeHTTP`. -/
def processResponse (gzipD deflateD : List Nat → Except String (List Nat))
    (gzipC deflateC : List Nat → List Nat)
    (parseOCI : List Nat → Except String OracleCloudResponse)
    (marshalChat : ChatCompletionResponse → List Nat)
    (id : String) (now : Int)
    (captured : CapturedResponse) (originalModel : String) :
    Except String HttpResponse :=
  if captured.statusCode ≠ 200 then
    .ok { statusCode := captured.statusCode, body := captured.body }
  else
    match decompressResponse gzipD deflateD captured.body captured.contentEncoding with
    | .error e => .error ("failed to decompress response: " ++ e)
    | .ok responseBody =>
      match parseOCI responseBody with
      | .error e => .error ("failed to parse OCI GenAI response: " ++ e)
      | .ok ociResp =>
        let openAIResp := ToOpenAIResponse id now ociResp originalModel
        let openAIBody := marshalChat openAIResp
        let finalBody := compressResponse gzipC deflateC openAIBody captured.contentEncoding
        .ok { statusCode := 200, body := finalBody }

/-- The chat-completions tail of `ServeHTTP` (first variant, lines 135-140):
if `processResponse` fails, the original captured status and body are written
to the caller unmodified. -/
def serveChatResponse (gzipD deflateD : List Nat → Except String (List Nat))
    (gzipC deflateC : List Nat → List Nat)
    (parseOCI : List Nat → Except String OracleCloudResponse)
    (marshalChat : ChatCompletionResponse → List Nat)
    (id : String) (now : Int)
    (captured : CapturedResponse) (originalModel : String) : HttpResponse :=
  match processResponse gzipD deflateD gzipC deflateC parseOCI marshalChat
      id now captured originalModel with
  | .ok out => out
  | .error _ => { statusCode := captured.statusCode, body := captured.body }

/-- The post-downstream part of `Proxy.processModelsRequest` (first variant):
on non-200 the captured status and body pass through; on 200 the body is
decompressed, parsed as a models listing, transformed, re-serialized and
re-compressed. -/
def processModelsResponse (gzipD deflateD : List Nat → Except String (List Nat))
    (gzipC deflateC : List Nat → List Nat)
    (parseModels : List Nat → Except String OCIModelsResponse)
    (marshalModels : OpenAIModelsResponse → List Nat)
    (parseRFC3339 : String → Option Int) (now : Int)
    (captured : CapturedResponse) : Except String HttpResponse :=
  if captured.statusCode ≠ 200 then
    .ok { statusCode := captured.statusCode, body := captured.body }
  else
    match decompressResponse gzipD deflateD captured.body captured.contentEncoding with
    | .error e => .error ("failed to decompress response: " ++ e)
    | .ok responseBody =>
      match parseModels responseBody with
      | .error e => .error ("failed to parse OCI models response: " ++ e)
      | .ok ociResp =>
        let openAIResp := ToOpenAIModelsResponse parseRFC3339 now ociResp
        let openAIBody := marshalModels openAIResp
        let finalBody := compressResponse gzipC deflateC openAIBody captured.contentEncoding
        .ok { statusCode := 200, body := finalBody }

/-- The models branch of `ServeHTTP` (first variant, lines 113-119): if
`processModelsRequest` fails, `http.Error` answers with status 500 and the
error text — not with the captured downstream response. -/
def serveModelsResponse (gzipD deflateD : List Nat → Except String (List Nat))
    (gzipC deflateC : List Nat → List Nat)
    (parseModels : List Nat → Except String OCIModelsResponse)
    (marshalModels : OpenAIModelsResponse → List Nat)
    (parseRFC3339 : String → Option Int) (now : Int)
    (captured : CapturedResponse) : HttpResponse :=
  match processModelsResponse gzipD deflateD gzipC deflateC parseModels
      marshalModels parseRFC3339 now captured with
  | .ok out => out
  | .error e => { statusCode := 500, body := httpErrorBody e }

/-- The routing decision taken by `ServeHTTP` (first variant, lines 103-145). -/
inductive ServeAction where
  | preflight
  | modelsPath
  | chatPath
  | passThrough
deriving DecidableEq

/-- The Go function strings.HasSuffix, on the character list of the string (for UTF-8
strings byte-wise and character-wise suffix agree). -/
def strHasSuffix (s suffix : String) : Bool :=
  s.data.drop (s.data.length - suffix.data.length) == suffix.data

/-- The dispatch structure of `ServeHTTP` (first variant): OPTIONS requests
are answered directly; GET requests whose path ends with "/models" and POST
requests whose path ends with "/chat/completions" are transformed; everything
else passes through to the next handler. -/
def serveHTTPDispatchV1 (req : Request) : ServeAction :=
  if req.method = "OPTIONS" then ServeAction.preflight
  else if req.method = "GET" ∧ strHasSuffix req.path ("/models") = true then
    ServeAction.modelsPath
  else if req.method = "POST" ∧ strHasSuffix req.path ("/chat/completions") = true then
    ServeAction.chatPath
  else ServeAction.passThrough

/-- `ServeHTTP` (first variant) with the two transforming branches abstracted
as handlers: an OPTIONS request is answered directly with CORS headers and
status 200 and an empty body; a pass-through request is handed to the next
handler unmodified and its response relayed unmodified. -/
def serveHTTPV1 (handleModels handleChat next : Request → HttpResponse)
    (req : Request) : HttpResponse :=
  match serveHTTPDispatchV1 req with
  | ServeAction.preflight => { statusCode := 200, body := [] }
  | ServeAction.modelsPath => handleModels req
  | ServeAction.chatPath => handleChat req
  | ServeAction.passThrough => next req

/-- `Proxy.shouldProcessRequest` (second variant, plugin.go lines 577-587). -/
def shouldProcessRequest (req : Request) : Bool :=
  if req.method == "POST" && strHasSuffix req.path ("/chat/completions") then true
  else if req.method == "GET" && strHasSuffix req.path ("/models") then true
  else false

/-!  Claim theorems. -/

/-- C5: for every chat request with a non-empty message list of length N, the
current message of the backend request equals the content of the last input
message verbatim, the chat history has exactly N-1 entries, the history
entries appear in input order (oldest first), and the last message is
excluded from the history. -/
theorem C5_current_message_and_history (cfg : Config)
    (req : ChatCompletionRequest) (h : req.messages ≠ []) :
    (ToOracleCloudRequest cfg req).chatRequest.message =
      (req.messages.getLast h).content ∧
    (ToOracleCloudRequest cfg req).chatRequest.chatHistory.length =
      req.messages.length - 1 ∧
    (ToOracleCloudRequest cfg req).chatRequest.chatHistory =
      req.messages.dropLast.map toHistoryEntry := by
  unfold ToOracleCloudRequest
  rw [if_neg h]
  simp only [splitMessages_eq]
  refine ⟨?_, ?_, ?_⟩
  · simp [lastContent, List.getLast?_eq_getLast _ h]
  · simp
  · simp

/-- Witness for C5 at a concrete three-message request. -/
theorem C5_current_message_and_history_witness :
    (ToOracleCloudRequest { compartmentId := "c", region := "r" }
        { model := "m"
          messages :=
            [ { role := "system", content := "s1" },
              { role := "user", content := "u1" },
              { role := "user", content := "u2" } ]
          maxTokens := 0, temperature := 0, topP := 0
          frequencyPenalty := 0, presencePenalty := 0 }).chatRequest.message = "u2" ∧
    (ToOracleCloudRequest { compartmentId := "c", region := "r" }
        { model := "m"
          messages :=
            [ { role := "system", content := "s1" },
              { role := "user", content := "u1" },
              { role := "user", content := "u2" } ]
          maxTokens := 0, temperature := 0, topP := 0
          frequencyPenalty := 0, presencePenalty := 0 }).chatRequest.chatHistory.length = 2 := by
  have h := C5_current_message_and_history { compartmentId := "c", region := "r" }
    { model := "m"
      messages :=
        [ { role := "system", content := "s1" },
          { role := "user", content := "u1" },
          { role := "user", content := "u2" } ]
      maxTokens := 0, temperature := 0, topP := 0
      frequencyPenalty := 0, presencePenalty := 0 } (by decide)
  exact ⟨h.1, h.2.1⟩

/-- C2 counterexample: the transformer copies the role of a history entry verbatim
(here "assistant"), it does not map it into the USER/CHATBOT alphabet
the claim requires. -/
theorem C2_counterexample :
    (ToOracleCloudRequest { compartmentId := "c", region := "r" }
        { model := "m"
          messages :=
            [ { role := "assistant", content := "hi" },
              { role := "user", content := "yo" } ]
          maxTokens := 0, temperature := 0, topP := 0
          frequencyPenalty := 0, presencePenalty := 0 }).chatRequest.chatHistory =
      [ { role := "assistant", content := "hi" } ] ∧
    ("assistant" : String) ≠ "USER" ∧ ("assistant" : String) ≠ "CHATBOT" := by
  refine ⟨?_, by decide, by decide⟩
  decide

/-- C2 amended: for every chat request with at least two messages, each
chat-history entry keeps the role of the corresponding input message verbatim (no
USER/CHATBOT mapping is applied) and its content verbatim. -/
theorem C2_history_roles_verbatim (cfg : Config)
    (req : ChatCompletionRequest) (h : 2 ≤ req.messages.length) :
    (ToOracleCloudRequest cfg req).chatRequest.chatHistory =
      req.messages.dropLast.map
        (fun m => { role := m.role, content := m.content }) := by
  have hne : req.messages ≠ [] := by
    intro hnil
    rw [hnil] at h
    simp at h
  unfold ToOracleCloudRequest
  rw [if_neg hne]
  simp only [splitMessages_eq]
  rfl

/-- Witness for the amended C2 statement at a concrete two-message request. -/
theorem C2_history_roles_verbatim_witness :
    (ToOracleCloudRequest { compartmentId := "c", region := "r" }
        { model := "m"
          messages :=
            [ { role := "Assistant", content := "a" },
              { role := "user", content := "b" } ]
          maxTokens := 0, temperature := 0, topP := 0
          frequencyPenalty := 0, presencePenalty := 0 }).chatRequest.chatHistory =
      [ { role := "Assistant", content := "a" } ] := by
  have h := C2_history_roles_verbatim { compartmentId := "c", region := "r" }
    { model := "m"
      messages :=
        [ { role := "Assistant", content := "a" },
          { role := "user", content := "b" } ]
      maxTokens := 0, temperature := 0, topP := 0
      frequencyPenalty := 0, presencePenalty := 0 } (by decide)
  simpa using h

/-- C4 counterexample: in the empty-messages branch the caller top-p is not
carried through; the emitted request has top-p 0 although the caller supplied
9/10 (the frequency and presence penalties are dropped the same way). -/
theorem C4_counterexample :
    (ToOracleCloudRequest { compartmentId := "c", region := "r" }
        { model := "m", messages := []
          maxTokens := 5, temperature := 1/2, topP := 9/10
          frequencyPenalty := 1/4, presencePenalty := 1/8 }).chatRequest.topP = 0 ∧
    ((9 : Rat)/10) ≠ 0 := by
  constructor
  · decide
  · norm_num

/-- C4 amended: for every chat request with an empty message list, the
transformer emits a degenerate request with empty message string, sub-dialect
"COHERE", no chat history, and with max tokens and temperature carried
through verbatim — but top-p, frequency penalty and presence penalty are
reset to zero rather than carried. -/
theorem C4_empty_messages (cfg : Config) (req : ChatCompletionRequest)
    (h : req.messages = []) :
    (ToOracleCloudRequest cfg req).chatRequest.message = "" ∧
    (ToOracleCloudRequest cfg req).chatRequest.apiFormat = "COHERE" ∧
    (ToOracleCloudRequest cfg req).chatRequest.chatHistory = [] ∧
    (ToOracleCloudRequest cfg req).chatRequest.maxTokens = req.maxTokens ∧
    (ToOracleCloudRequest cfg req).chatRequest.temperature = req.temperature ∧
    (ToOracleCloudRequest cfg req).chatRequest.topP = 0 ∧
    (ToOracleCloudRequest cfg req).chatRequest.frequencyPenalty = 0 ∧
    (ToOracleCloudRequest cfg req).chatRequest.presencePenalty = 0 := by
  unfold ToOracleCloudRequest
  rw [if_pos h]
  exact ⟨rfl, rfl, rfl, rfl, rfl, rfl, rfl, rfl⟩

/-- Witness for the amended C4 statement at a concrete empty-messages request. -/
theorem C4_empty_messages_witness :
    (ToOracleCloudRequest { compartmentId := "c", region := "r" }
        { model := "m", messages := []
          maxTokens := 5, temperature := 1/2, topP := 9/10
          frequencyPenalty := 1/4, presencePenalty := 1/8 }).chatRequest.message = "" ∧
    (ToOracleCloudRequest { compartmentId := "c", region := "r" }
        { model := "m", messages := []
          maxTokens := 5, temperature := 1/2, topP := 9/10
          frequencyPenalty := 1/4, presencePenalty := 1/8 }).chatRequest.maxTokens = 5 := by
  have h := C4_empty_messages { compartmentId := "c", region := "r" }
    { model := "m", messages := []
      maxTokens := 5, temperature := 1/2, topP := 9/10
      frequencyPenalty := 1/4, presencePenalty := 1/8 } rfl
  exact ⟨h.1, h.2.2.2.1⟩

/-- C9: in the first interceptor variant, the backend request forwarded
downstream always carries maxTokens = 1000, regardless of the caller
max_tokens value. -/
theorem C9_forced_max_tokens (cfg : Config) (req : ChatCompletionRequest) :
    (processOpenAIRequestV1 cfg req).chatRequest.maxTokens = 1000 := by
  simp only [processOpenAIRequestV1, ToOracleCloudRequest]
  split <;> rfl

/-- Concrete OCI model whose id and display name differ, taken from the
repository test data (plugin_test.go). -/
def sampleOCIModel : OCIModel :=
  { capabilities := ["CHAT"]
    displayName := "Command R Plus"
    id := "cohere.command-r-plus"
    lifecycleState := "ACTIVE"
    timeCreated := "2023-01-01T00:00:00Z"
    vendor := "cohere" }

/-- C3 counterexample: the id of an included entry is the id field of the source model,
not its display name — for the test-data model the output id is
"cohere.command-r-plus" while the display name is "Command R Plus". -/
theorem C3_counterexample :
    (ToOpenAIModelsResponse (fun _ => none) 7 { models := [sampleOCIModel] }).data.map
        OpenAIModel.id = ["cohere.command-r-plus"] ∧
    sampleOCIModel.displayName = "Command R Plus" ∧
    ("cohere.command-r-plus" : String) ≠ "Command R Plus" := by
  refine ⟨?_, rfl, by decide⟩
  decide

/-- C3 amended: the models listing keeps exactly the input models whose
lifecycle state is "ACTIVE" and whose capabilities include "CHAT"; each kept
entry has id equal to the id field of the source model, object tag "model", owner
equal to the vendor, and a creation timestamp parsed from the RFC3339 string
with the current time as fallback when parsing fails. -/
theorem C3_models_listing (parseRFC3339 : String → Option Int) (now : Int)
    (ociResp : OCIModelsResponse) :
    (ToOpenAIModelsResponse parseRFC3339 now ociResp).object = "list" ∧
    (ToOpenAIModelsResponse parseRFC3339 now ociResp).data =
      (ociResp.models.filter
          (fun m => m.capabilities.contains "CHAT" && m.lifecycleState == "ACTIVE")).map
        (fun m =>
          { id := m.id
            object := "model"
            created := (parseRFC3339 m.timeCreated).getD now
            ownedBy := m.vendor }) := by
  exact ⟨rfl, modelsLoop_eq parseRFC3339 now ociResp.models⟩

/-- Concrete OCI response with a negative prompt-token count (the Go field is
a signed int, so JSON can deliver this) exercising the usage fallback. -/
def negUsageResponse : OracleCloudResponse :=
  { modelId := "m1"
    modelVersion := "1"
    chatResponse :=
      { apiFormat := "COHERE"
        text := "t"
        chatHistory := []
        finishReason := "COMPLETE"
        usage := { completionTokens := 0, promptTokens := -1, totalTokens := 0 } } }

/-- C8 counterexample: with usage {prompt:-1, completion:0, total:0} the
total is zero and the prompt count is nonzero, so the claim requires the
output total to be prompt+completion = -1; the guard in the code tests `> 0`, not
"nonzero", and leaves the total at 0. -/
theorem C8_counterexample :
    negUsageResponse.chatResponse.usage.totalTokens = 0 ∧
    negUsageResponse.chatResponse.usage.promptTokens ≠ 0 ∧
    (ToOpenAIResponse "id0" 0 negUsageResponse "m").usage.totalTokens = 0 ∧
    negUsageResponse.chatResponse.usage.promptTokens +
      negUsageResponse.chatResponse.usage.completionTokens = -1 := by
  refine ⟨rfl, by decide, ?_, by decide⟩
  decide

/-- C8 amended: the transformer copies the prompt/completion/total token
counts through, except that when total is zero and at least one of prompt or
completion is positive (strictly greater than zero), the output total equals
prompt plus completion; in particular usage {prompt:10, completion:6,
total:0} yields output total 16. -/
theorem C8_usage_fallback (id : String) (now : Int)
    (resp : OracleCloudResponse) (model : String) :
    ((ToOpenAIResponse id now resp model).usage.promptTokens =
        resp.chatResponse.usage.promptTokens ∧
      (ToOpenAIResponse id now resp model).usage.completionTokens =
        resp.chatResponse.usage.completionTokens ∧
      (ToOpenAIResponse id now resp model).usage.totalTokens =
        (if resp.chatResponse.usage.totalTokens = 0 ∧
            (resp.chatResponse.usage.promptTokens > 0 ∨
              resp.chatResponse.usage.completionTokens > 0)
          then resp.chatResponse.usage.promptTokens +
            resp.chatResponse.usage.completionTokens
          else resp.chatResponse.usage.totalTokens)) ∧
    (ToOpenAIResponse "i" 0
        { modelId := "m"
          modelVersion := "1"
          chatResponse :=
            { apiFormat := "COHERE"
              text := "t"
              chatHistory := []
              finishReason := "COMPLETE"
              usage :=
                { completionTokens := 6, promptTokens := 10,
                  totalTokens := 0 } } }
        "m").usage.totalTokens = 16 := by
  refine ⟨⟨?_, ?_, ?_⟩, by decide⟩
  · simp only [ToOpenAIResponse]
    split <;> rfl
  · simp only [ToOpenAIResponse]
    split <;> rfl
  · simp only [ToOpenAIResponse]
    split <;> rfl

/-- C10: the capture wrapper records the last WriteHeader code (defaulting to
200), buffers all written bytes in order, reports a full successful write for
every Write call, and never touches the underlying response writer. -/
theorem C10_capture_wrapper (w : UnderlyingWriter) (cs : List WriterCall)
    (rw : responseWriter) (b : List Nat) :
    (runCalls (newResponseWriter w) cs).statusCode = lastStatus 200 cs ∧
    (runCalls (newResponseWriter w) cs).body = writtenBytes cs ∧
    (runCalls (newResponseWriter w) cs).underlying = w ∧
    (rw.Write b).2.1 = b.length ∧
    (rw.Write b).2.2 = none := by
  have h := runCalls_characterization (newResponseWriter w) cs
  simp only [newResponseWriter] at h
  exact ⟨h.1, by simpa using h.2.1, h.2.2, rfl, rfl⟩

/-- A request the routing rule does not match (OPTIONS method). -/
def optionsRequest : Request :=
  { method := "OPTIONS", path := "/x", body := [] }

/-- A downstream handler returning a distinctive response. -/
def notFoundNext : Request → HttpResponse :=
  fun _ => { statusCode := 404, body := [9] }

/-- A placeholder transforming handler. -/
def zeroHandler : Request → HttpResponse :=
  fun _ => { statusCode := 0, body := [] }

/-- C6 counterexample: an OPTIONS request matches neither transformable
route, yet the dispatcher does not forward it to the downstream handler — it
answers directly with status 200 and an empty body instead of relaying the
downstream response. -/
theorem C6_counterexample :
    serveHTTPV1 zeroHandler zeroHandler notFoundNext optionsRequest =
      { statusCode := 200, body := [] } ∧
    notFoundNext optionsRequest = { statusCode := 404, body := [9] } ∧
    shouldProcessRequest optionsRequest = false := by
  refine ⟨?_, rfl, ?_⟩
  · decide
  · decide

/-- C6 amended: the dispatcher transforms a request if and only if it is a
POST whose path ends with "/chat/completions" or a GET whose path ends with
"/models"; an OPTIONS request is answered directly with status 200 and CORS
headers without reaching the downstream handler; every other non-matching
request is forwarded to the downstream handler unmodified and its response
relayed unmodified. -/
theorem C6_routing (req : Request) (hm hc next : Request → HttpResponse) :
    (serveHTTPDispatchV1 req = ServeAction.chatPath ↔
      (req.method = "POST" ∧ strHasSuffix req.path ("/chat/completions") = true)) ∧
    (serveHTTPDispatchV1 req = ServeAction.modelsPath ↔
      (req.method = "GET" ∧ strHasSuffix req.path ("/models") = true)) ∧
    (serveHTTPDispatchV1 req = ServeAction.preflight ↔ req.method = "OPTIONS") ∧
    (serveHTTPDispatchV1 req = ServeAction.passThrough →
      serveHTTPV1 hm hc next req = next req) ∧
    (req.method ≠ "OPTIONS" →
      ¬(req.method = "POST" ∧ strHasSuffix req.path ("/chat/completions") = true) →
      ¬(req.method = "GET" ∧ strHasSuffix req.path ("/models") = true) →
      serveHTTPDispatchV1 req = ServeAction.passThrough) ∧
    (shouldProcessRequest req = true ↔
      ((req.method = "POST" ∧ strHasSuffix req.path ("/chat/completions") = true) ∨
        (req.method = "GET" ∧ strHasSuffix req.path ("/models") = true))) := by
  refine ⟨?_, ?_, ?_, ?_, ?_, ?_⟩
  · unfold serveHTTPDispatchV1
    split_ifs with h1 h2 h3 <;> simp_all
  · unfold serveHTTPDispatchV1
    split_ifs with h1 h2 h3 <;> simp_all
  · unfold serveHTTPDispatchV1
    split_ifs with h1 h2 h3 <;> simp_all
  · intro hd
    unfold serveHTTPV1
    rw [hd]
  · intro hO hP hG
    unfold serveHTTPDispatchV1
    rw [if_neg hO, if_neg hG, if_neg hP]
  · unfold shouldProcessRequest
    split_ifs with h1 h2 <;> simp_all

/-- Witness for the amended C6 statement: a GET request for "/v1/models" is
routed to the models path, and a GET request for "/v1/foo" passes through
with the downstream response relayed unmodified. -/
theorem C6_routing_witness :
    serveHTTPDispatchV1 { method := "GET", path := "/v1/models", body := [] } =
      ServeAction.modelsPath ∧
    serveHTTPV1 zeroHandler zeroHandler notFoundNext
        { method := "GET", path := "/v1/foo", body := [] } =
      notFoundNext { method := "GET", path := "/v1/foo", body := [] } := by
  constructor
  · exact (C6_routing { method := "GET", path := "/v1/models", body := [] }
      zeroHandler zeroHandler notFoundNext).2.1.mpr ⟨rfl, by decide⟩
  · refine (C6_routing { method := "GET", path := "/v1/foo", body := [] }
      zeroHandler zeroHandler notFoundNext).2.2.2.1 ?_
    refine (C6_routing { method := "GET", path := "/v1/foo", body := [] }
      zeroHandler zeroHandler notFoundNext).2.2.2.2.1 (by decide) ?_ ?_
    · rintro ⟨hp, _⟩
      exact absurd hp (by decide)
    · rintro ⟨_, hs⟩
      exact absurd hs (by decide)

/-- Identity stand-in for a decompressor (used to instantiate the abstract
codec parameters at concrete inputs). -/
def okCodec : List Nat → Except String (List Nat) :=
  fun b => Except.ok b

/-- Identity stand-in for a compressor. -/
def idCompress : List Nat → List Nat :=
  fun b => b

/-- A backend-body parser that always fails, standing for `json.Unmarshal`
on a body that is not valid JSON for the target shape. -/
def parseModelsFail : List Nat → Except String OCIModelsResponse :=
  fun _ => Except.error ("invalid character")

/-- A chat-body parser that always fails, standing for `json.Unmarshal` on a
body that is not valid JSON for the target shape. -/
def parseOCIFail : List Nat → Except String OracleCloudResponse :=
  fun _ => Except.error ("invalid character")

/-- A serializer stand-in for the models listing. -/
def marshalModelsZero : OpenAIModelsResponse → List Nat :=
  fun _ => []

/-- A serializer stand-in for the chat response. -/
def marshalChatZero : ChatCompletionResponse → List Nat :=
  fun _ => []

/-- A captured downstream response: status 200, body one byte, no
Content-Encoding. -/
def capturedOk123 : CapturedResponse :=
  { statusCode := 200, body := [123], contentEncoding := "" }

/-- C1 counterexample: a models request whose downstream call returned 200
but whose body fails to parse is answered with status 500 (a translation
error), not with the captured status 200 and original body. -/
theorem C1_counterexample :
    (serveModelsResponse okCodec okCodec idCompress idCompress parseModelsFail
        marshalModelsZero (fun _ => none) 0 capturedOk123).statusCode = 500 ∧
    capturedOk123.statusCode = 200 := by
  exact ⟨rfl, rfl⟩

/-- C1 amended: on the chat-completions path a post-success translation
failure is handled fail-open — the captured downstream status and body are
written unmodified; on the models path, however, a translation failure is
answered with status 500 and the error text instead of the captured
response. -/
theorem C1_fail_open (gzipD deflateD : List Nat → Except String (List Nat))
    (gzipC deflateC : List Nat → List Nat)
    (parseOCI : List Nat → Except String OracleCloudResponse)
    (marshalChat : ChatCompletionResponse → List Nat)
    (parseModels : List Nat → Except String OCIModelsResponse)
    (marshalModels : OpenAIModelsResponse → List Nat)
    (parseRFC3339 : String → Option Int)
    (id : String) (now : Int)
    (captured captured2 : CapturedResponse) (originalModel : String)
    (e1 e2 : String)
    (h1 : processResponse gzipD deflateD gzipC deflateC parseOCI marshalChat
        id now captured originalModel = Except.error e1)
    (h2 : processModelsResponse gzipD deflateD gzipC deflateC parseModels
        marshalModels parseRFC3339 now captured2 = Except.error e2) :
    serveChatResponse gzipD deflateD gzipC deflateC parseOCI marshalChat
        id now captured originalModel =
      { statusCode := captured.statusCode, body := captured.body } ∧
    serveModelsResponse gzipD deflateD gzipC deflateC parseModels
        marshalModels parseRFC3339 now captured2 =
      { statusCode := 500, body := httpErrorBody e2 } := by
  constructor
  · unfold serveChatResponse
    rw [h1]
  · unfold serveModelsResponse
    rw [h2]

/-- Witness for the amended C1 statement: with parsers that reject the body,
the chat path relays the captured 200 response and the models path answers
500. -/
theorem C1_fail_open_witness :
    serveChatResponse okCodec okCodec idCompress idCompress parseOCIFail
        marshalChatZero ("id0") 0 capturedOk123 ("m") =
      { statusCode := 200, body := [123] } ∧
    serveModelsResponse okCodec okCodec idCompress idCompress parseModelsFail
        marshalModelsZero (fun _ => none) 0 capturedOk123 =
      { statusCode := 500,
        body := httpErrorBody
          ("failed to parse OCI models response: invalid character") } := by
  have h := C1_fail_open okCodec okCodec idCompress idCompress parseOCIFail
    marshalChatZero parseModelsFail marshalModelsZero (fun _ => none)
    ("id0") 0 capturedOk123 capturedOk123 ("m")
    ("failed to parse OCI GenAI response: invalid character")
    ("failed to parse OCI models response: invalid character")
    rfl rfl
  exact ⟨h.1, h.2⟩

/-- C7: with standard-library codecs that invert each other (the documented
contract of gzip/flate; gzip output is never shorter than two bytes), the
transport codec round-trips every body under "gzip" and under "deflate"; and
for an absent/empty or unsupported Content-Encoding value both directions
return the input bytes unchanged. -/
theorem C7_codec_round_trip
    (gzipD deflateD : List Nat → Except String (List Nat))
    (gzipC deflateC : List Nat → List Nat)
    (hg : ∀ b, gzipD (gzipC b) = Except.ok b)
    (hglen : ∀ b, 2 ≤ (gzipC b).length)
    (hd : ∀ b, deflateD (deflateC b) = Except.ok b) :
    (∀ b, decompressResponse gzipD deflateD
        (compressResponse gzipC deflateC b ("gzip")) ("gzip") = Except.ok b) ∧
    (∀ b, decompressResponse gzipD deflateD
        (compressResponse gzipC deflateC b ("deflate")) ("deflate") = Except.ok b) ∧
    (∀ b enc, enc = "" ∨ (enc ≠ "gzip" ∧ enc ≠ "deflate") →
      compressResponse gzipC deflateC b enc = b ∧
      decompressResponse gzipD deflateD b enc = Except.ok b) := by
  have hgz : ¬("gzip" : String) = "" := by decide
  have hdf : ¬("deflate" : String) = "" := by decide
  have hdg : ¬("deflate" : String) = "gzip" := by decide
  refine ⟨?_, ?_, ?_⟩
  · intro b
    have hc : compressResponse gzipC deflateC b ("gzip") = gzipC b := by
      unfold compressResponse
      rw [if_neg hgz, if_pos rfl]
    have hnl : ¬(gzipC b).length < 2 := by
      have := hglen b
      omega
    rw [hc]
    unfold decompressResponse
    rw [if_neg hgz, if_pos rfl, if_neg hnl, hg b]
  · intro b
    have hc : compressResponse gzipC deflateC b ("deflate") = deflateC b := by
      unfold compressResponse
      rw [if_neg hdf, if_neg hdg, if_pos rfl]
    rw [hc]
    unfold decompressResponse
    rw [if_neg hdf, if_neg hdg, if_pos rfl, hd b]
  · intro b enc h
    by_cases h0 : enc = ""
    · subst h0
      constructor
      · unfold compressResponse
        rw [if_pos rfl]
      · unfold decompressResponse
        rw [if_pos rfl]
    · rcases h with h0' | ⟨hg1, hd1⟩
      · exact absurd h0' h0
      · constructor
        · unfold compressResponse
          rw [if_neg h0, if_neg hg1, if_neg hd1]
        · unfold decompressResponse
          rw [if_neg h0, if_neg hg1, if_neg hd1]

/-- A gzip-compressor stand-in satisfying the inversion contract: two header
bytes then the payload. -/
def wGzipC : List Nat → List Nat :=
  fun b => 0 :: 0 :: b

/-- The matching gzip-decompressor stand-in. -/
def wGzipD : List Nat → Except String (List Nat) :=
  fun b => Except.ok (b.drop 2)

/-- Witness for C7 at concrete codecs and bodies: the gzip and deflate
round-trips return the original bytes, and an unsupported encoding ("br")
passes through both directions. -/
theorem C7_codec_round_trip_witness :
    decompressResponse wGzipD okCodec
        (compressResponse wGzipC idCompress [1, 2, 3] ("gzip")) ("gzip") =
      Except.ok [1, 2, 3] ∧
    decompressResponse wGzipD okCodec
        (compressResponse wGzipC idCompress [1, 2, 3] ("deflate")) ("deflate") =
      Except.ok [1, 2, 3] ∧
    compressResponse wGzipC idCompress [1, 2, 3] ("br") = [1, 2, 3] ∧
    decompressResponse wGzipD okCodec [1, 2, 3] ("br") = Except.ok [1, 2, 3] := by
  have h := C7_codec_round_trip wGzipD okCodec wGzipC idCompress
    (fun b => rfl)
    (fun b => by simp [wGzipC])
    (fun b => rfl)
  refine ⟨h.1 [1, 2, 3], h.2.1 [1, 2, 3], ?_, ?_⟩
  · exact (h.2.2 [1, 2, 3] ("br") (Or.inr ⟨by decide, by decide⟩)).1
  · exact (h.2.2 [1, 2, 3] ("br") (Or.inr ⟨by decide, by decide⟩)).2

end Ociaitoopenai
